import Mathlib

/-!
Shallow embedding of `composer/callbacks/torch_profiler.py` (the `TorchProfiler`
callback) together with models of the external objects it interacts with
(the torch profiler and its schedule, the trainer `State`, the `Logger`).
Python integers are embedded as `Int`; Python dicts produced by
`dataclasses.asdict` as association lists; methods that may raise an
`AssertionError` return the post-mutation object together with an optional
raised error, mirroring Python's mutate-then-raise order.
-/

/-- The actions of the external torch profiler schedule
(`torch.profiler.profiler.ProfilerAction`). -/
inductive ProfilerAction where
  | NONE
  | WARMUP
  | RECORD
  | RECORD_AND_SAVE
deriving DecidableEq, Repr

/-- The `.name` attribute of a `ProfilerAction` enum member. -/
def ProfilerAction.name : ProfilerAction → String
  | .NONE => "NONE"
  | .WARMUP => "WARMUP"
  | .RECORD => "RECORD"
  | .RECORD_AND_SAVE => "RECORD_AND_SAVE"

/-- The module-level error message `_PROFILE_MISSING_ERROR`. -/
def _PROFILE_MISSING_ERROR : String :=
  "The profiler has not been setup. Please call profiler.training_start() before training starts."

/-- The dataclass `_TorchProfilerState`, holding the callback's persistent
scheduling state. Both fields default to `0`. -/
structure _TorchProfilerState where
  batch_in_epoch : Int := 0
  batches_per_epoch : Int := 0
deriving DecidableEq, Repr

/-- The keyword arguments the callback passes to the external factory
`torch.profiler.profiler.schedule`. -/
structure TorchScheduleArgs where
  wait : Int
  warmup : Int
  active : Int
  skip_first : Int
  repeat_ : Int
deriving DecidableEq, Repr

/-- The `TorchProfilerHparams` dataclass (declared in
`composer/callbacks/callback_hparams.py`, outside this slice); it only
stores the constructor arguments, as `TorchProfiler.__init__` fills it. -/
structure TorchProfilerHparams where
  skip : Int
  warmup : Int
  active : Int
  wait : Int
  tensorboard_trace_handler_dir : String
  tensorboard_use_gzip : Bool
  record_shapes : Bool
  profile_memory : Bool
  with_stack : Bool
  with_flops : Bool
  repeat_ : Int
deriving DecidableEq, Repr

/-- Model of the external `torch.profiler.profile` object: we record the
construction arguments the callback passes (trace handler directory,
per-worker name, gzip flag, recording options), the context-manager state
(`entered`/`exited`), the number of `step()` calls, and the abstract
`current_action` the callback reads. -/
structure TorchProfile where
  trace_dir : String
  worker_name : String
  use_gzip : Bool
  record_shapes : Bool
  profile_memory : Bool
  with_stack : Bool
  with_flops : Bool
  entered : Bool
  exited : Bool
  step_num : Nat
  current_action : ProfilerAction
deriving DecidableEq, Repr

/-- `profile.__enter__`: the profiler context is entered. -/
def TorchProfile.__enter__ (p : TorchProfile) : TorchProfile :=
  { p with entered := true }

/-- `profile.__exit__(None, None, None)`: the profiler context is exited. -/
def TorchProfile.__exit__ (p : TorchProfile) : TorchProfile :=
  { p with exited := true }

/-- `profile.step()`: the external profiler advances by one step. Only the
step counter observed by the claims is tracked. -/
def TorchProfile.step (p : TorchProfile) : TorchProfile :=
  { p with step_num := p.step_num + 1 }

/-- Modelled from the spec: the trainer `State` (`composer.core.State`, repo
code not under src/). Only the fields the profiler callback reads
(`batch_idx`, `steps_per_epoch`) are represented, plus a residual field
standing for every other trainer field, so that leaving the state unchanged
is a meaningful frame condition. -/
structure State where
  batch_idx : Int
  steps_per_epoch : Int
  rest : Int
deriving DecidableEq, Repr

/-- Modelled from the spec: the `Logger` (`composer.core.Logger`, repo code
not under src/), which records batch metrics; we track the sequence of
logged key/value pairs. -/
structure Logger where
  logged : List (String × String)
deriving DecidableEq, Repr

/-- Modelled from the spec: `Logger.metric_batch` records one batch-metric
dictionary, here appended as its key/value pairs. -/
def Logger.metric_batch (l : Logger) (metrics : List (String × String)) : Logger :=
  { logged := l.logged ++ metrics }

/-- A raised Python exception, as far as the callback raises them. -/
inductive PyErr where
  | assertionError (msg : String)
deriving DecidableEq, Repr

/-- The `TorchProfiler` callback object: its hparams, the optional wrapped
torch profiler, its persistent scheduling state, and the wrapped schedule
closure returned by `torch.profiler.profiler.schedule` (external, hence an
abstract function). -/
structure TorchProfiler where
  hparams : TorchProfilerHparams
  profiler : Option TorchProfile
  profiler_state : _TorchProfilerState
  _torch_profiler_scheduler : Int → ProfilerAction

/-- Modelled from the spec: `composer.utils.run_directory.get_relative_to_run_directory`
(repo code not under src/) resolves a path relative to the run directory. -/
def get_relative_to_run_directory (run_directory path : String) : String :=
  run_directory ++ "/" ++ path

/-- `TorchProfiler.__init__`. The external factory
`torch.profiler.profiler.schedule` is a parameter (`torch_schedule`), applied
to the recorded keyword arguments; the ambient run directory is a parameter
as well. The `torch_tb_profiler` import check only emits a warning and is
not modelled. -/
def TorchProfiler.__init__ (torch_schedule : TorchScheduleArgs → Int → ProfilerAction)
    (run_directory : String)
    (tensorboard_trace_handler_dir : String := "torch_profiler")
    (tensorboard_use_gzip : Bool := false)
    (record_shapes : Bool := true)
    (profile_memory : Bool := false)
    (with_stack : Bool := true)
    (with_flops : Bool := true)
    (skip : Int := 0)
    (warmup : Int := 1)
    (active : Int := 5)
    (wait : Int := 0)
    (repeat_ : Int := 0) : TorchProfiler :=
  let hparams : TorchProfilerHparams :=
    { skip := skip
      warmup := warmup
      active := active
      wait := wait
      tensorboard_trace_handler_dir :=
        get_relative_to_run_directory run_directory tensorboard_trace_handler_dir
      tensorboard_use_gzip := tensorboard_use_gzip
      record_shapes := record_shapes
      profile_memory := profile_memory
      with_stack := with_stack
      with_flops := with_flops
      repeat_ := repeat_ }
  { hparams := hparams
    profiler := none
    profiler_state := {}
    _torch_profiler_scheduler :=
      torch_schedule
        { wait := hparams.wait
          warmup := hparams.warmup
          active := hparams.active
          skip_first := hparams.skip
          repeat_ := hparams.repeat_ } }

/-- `TorchProfiler.state_dict`: `dataclasses.asdict(self.profiler_state)`,
a dict with the dataclass's fields in declaration order. -/
def TorchProfiler.state_dict (self : TorchProfiler) : List (String × Int) :=
  [("batch_in_epoch", self.profiler_state.batch_in_epoch),
   ("batches_per_epoch", self.profiler_state.batches_per_epoch)]

/-- `_TorchProfilerState(**state)`: keyword construction from a dict. Every
key must name a dataclass field (otherwise Python raises `TypeError`, here
`none`); fields absent from the dict keep their default `0`. -/
def _TorchProfilerState.ofDict : List (String × Int) → _TorchProfilerState →
    Option _TorchProfilerState
  | [], acc => some acc
  | (k, v) :: kvs, acc =>
    if k = "batch_in_epoch" then
      _TorchProfilerState.ofDict kvs { acc with batch_in_epoch := v }
    else if k = "batches_per_epoch" then
      _TorchProfilerState.ofDict kvs { acc with batches_per_epoch := v }
    else
      none

/-- `TorchProfiler.load_state_dict`: replaces `profiler_state` by
`_TorchProfilerState(**state)`. -/
def TorchProfiler.load_state_dict (self : TorchProfiler) (state : List (String × Int)) :
    Option TorchProfiler :=
  (_TorchProfilerState.ofDict state {}).map
    (fun ps => { self with profiler_state := ps })

/-- `TorchProfiler.scheduler_fn`: wraps the torch schedule, giving it the
batch position within the epoch rather than the global step, and forcing a
trace save at epoch boundaries. -/
def TorchProfiler.scheduler_fn (self : TorchProfiler) (profiler_step : Int) : ProfilerAction :=
  let next_batch_in_epoch := self.profiler_state.batch_in_epoch + 1
  let next_batch_in_epoch := if profiler_step = 0 then 0 else next_batch_in_epoch
  let torch_scheduler_action := self._torch_profiler_scheduler next_batch_in_epoch
  if next_batch_in_epoch = self.profiler_state.batches_per_epoch then
    if torch_scheduler_action = ProfilerAction.RECORD then
      ProfilerAction.RECORD_AND_SAVE
    else
      torch_scheduler_action
  else
    torch_scheduler_action

/-- Result of running one lifecycle hook: the callback object, trainer state
and logger after the call, plus the raised exception when one was thrown.
Mutations preceding a failed `assert` are visible in the result, as in
Python. -/
structure HookResult where
  self : TorchProfiler
  state : State
  logger : Logger
  err : Option PyErr

/-- `TorchProfiler.init`: asserts no profiler is present, constructs the
torch profiler (its trace handler named after the caller's global
distributed rank, a parameter standing for `get_global_rank()`), and enters
its context. -/
def TorchProfiler.init (self : TorchProfiler) (global_rank : Int)
    (state : State) (logger : Logger) : HookResult :=
  match self.profiler with
  | some _ =>
    { self := self, state := state, logger := logger
      err := some (.assertionError _PROFILE_MISSING_ERROR) }
  | none =>
    let prof : TorchProfile :=
      { trace_dir := self.hparams.tensorboard_trace_handler_dir
        worker_name := toString global_rank
        use_gzip := self.hparams.tensorboard_use_gzip
        record_shapes := self.hparams.record_shapes
        profile_memory := self.hparams.profile_memory
        with_stack := self.hparams.with_stack
        with_flops := self.hparams.with_flops
        entered := false
        exited := false
        step_num := 0
        current_action := ProfilerAction.NONE }
    { self := { self with profiler := some prof.__enter__ }
      state := state, logger := logger, err := none }

/-- `TorchProfiler.batch_end`: asserts the profiler is present and steps it. -/
def TorchProfiler.batch_end (self : TorchProfiler) (state : State) (logger : Logger) :
    HookResult :=
  match self.profiler with
  | none =>
    { self := self, state := state, logger := logger
      err := some (.assertionError _PROFILE_MISSING_ERROR) }
  | some p =>
    { self := { self with profiler := some p.step }
      state := state, logger := logger, err := none }

/-- `TorchProfiler.epoch_start`: records the epoch length. -/
def TorchProfiler.epoch_start (self : TorchProfiler) (state : State) (logger : Logger) :
    HookResult :=
  { self := { self with
      profiler_state := { self.profiler_state with batches_per_epoch := state.steps_per_epoch } }
    state := state, logger := logger, err := none }

/-- `TorchProfiler.batch_start`: records the batch index, asserts the
profiler is present, and logs the profiler's current action. The batch-index
write precedes the assert, as in the source. -/
def TorchProfiler.batch_start (self : TorchProfiler) (state : State) (logger : Logger) :
    HookResult :=
  let self := { self with
    profiler_state := { self.profiler_state with batch_in_epoch := state.batch_idx } }
  match self.profiler with
  | none =>
    { self := self, state := state, logger := logger
      err := some (.assertionError _PROFILE_MISSING_ERROR) }
  | some p =>
    { self := self, state := state
      logger := logger.metric_batch [("profiler/state", p.current_action.name)]
      err := none }

/-- `TorchProfiler.close`: exits the profiler context when one is present,
and does nothing otherwise. -/
def TorchProfiler.close (self : TorchProfiler) : TorchProfiler :=
  match self.profiler with
  | none => self
  | some p => { self with profiler := some p.__exit__ }

/-! ## Sample objects used by the witnesses -/

/-- A concrete hparams record, as `__init__` would build from the defaults. -/
def sampleHparams : TorchProfilerHparams :=
  { skip := 0, warmup := 1, active := 5, wait := 0
    tensorboard_trace_handler_dir := "run/torch_profiler"
    tensorboard_use_gzip := false, record_shapes := true, profile_memory := false
    with_stack := true, with_flops := true, repeat_ := 0 }

/-- A concrete wrapped schedule: `RECORD` at index 2, `NONE` elsewhere. -/
def sampleSched : Int → ProfilerAction :=
  fun i => if i = 2 then ProfilerAction.RECORD else ProfilerAction.NONE

/-- A concrete schedule that records everywhere; it agrees with `sampleSched`
at index 2. -/
def sampleSchedRec : Int → ProfilerAction :=
  fun _ => ProfilerAction.RECORD

/-- A concrete callback before `init`: no profiler yet, one batch into an
epoch of two batches. -/
def sampleProfiler : TorchProfiler :=
  { hparams := sampleHparams
    profiler := none
    profiler_state := { batch_in_epoch := 1, batches_per_epoch := 2 }
    _torch_profiler_scheduler := sampleSched }

/-- A concrete wrapped torch profiler in the entered state. -/
def sampleProfile : TorchProfile :=
  { trace_dir := "run/torch_profiler", worker_name := "0", use_gzip := false
    record_shapes := true, profile_memory := false, with_stack := true
    with_flops := true, entered := true, exited := false, step_num := 4
    current_action := ProfilerAction.WARMUP }

/-- A concrete callback after `init`: the wrapped profiler is present. -/
def sampleProfilerLive : TorchProfiler :=
  { sampleProfiler with profiler := some sampleProfile }

/-- A concrete trainer state. -/
def sampleState : State :=
  { batch_idx := 7, steps_per_epoch := 10, rest := 42 }

/-- A concrete logger with nothing logged yet. -/
def sampleLogger : Logger :=
  { logged := [] }

/-! ## Claims -/

/-- C1: for every profiler step and every internal profiler state,
`TorchProfiler.scheduler_fn` returns `RECORD_AND_SAVE` exactly when the
computed next batch-in-epoch equals `batches_per_epoch` and the wrapped
torch schedule returns `RECORD` at that index (forcing a trace flush at the
epoch boundary); in every other case it returns the wrapped schedule's
action unchanged. -/
theorem scheduler_fn_forces_save_at_epoch_boundary
    (self : TorchProfiler) (profiler_step : Int) :
    self.scheduler_fn profiler_step =
      (if (if profiler_step = 0 then 0 else self.profiler_state.batch_in_epoch + 1)
            = self.profiler_state.batches_per_epoch ∧
          self._torch_profiler_scheduler
            (if profiler_step = 0 then 0 else self.profiler_state.batch_in_epoch + 1)
            = ProfilerAction.RECORD then
        ProfilerAction.RECORD_AND_SAVE
      else
        self._torch_profiler_scheduler
          (if profiler_step = 0 then 0 else self.profiler_state.batch_in_epoch + 1)) := by
  simp only [TorchProfiler.scheduler_fn]
  set idx := if profiler_step = 0 then 0 else self.profiler_state.batch_in_epoch + 1 with hidx
  split_ifs <;> first | rfl | tauto

/-- C2: the result of `scheduler_fn` depends on the wrapped torch schedule
only through its value at the batch position within the current epoch — the
index `profiler_state.batch_in_epoch + 1` for every profiler step other
than `0`, and `0` at step `0`: replacing the wrapped schedule by any
schedule that agrees with it at that single index leaves the returned
action unchanged. -/
theorem scheduler_fn_passes_epoch_local_index
    (self : TorchProfiler) (g : Int → ProfilerAction) (profiler_step : Int)
    (h : g (if profiler_step = 0 then 0 else self.profiler_state.batch_in_epoch + 1)
        = self._torch_profiler_scheduler
            (if profiler_step = 0 then 0 else self.profiler_state.batch_in_epoch + 1)) :
    TorchProfiler.scheduler_fn { self with _torch_profiler_scheduler := g } profiler_step
      = self.scheduler_fn profiler_step := by
  obtain ⟨hp, prof, ps, f⟩ := self
  simp only [TorchProfiler.scheduler_fn] at h ⊢
  rw [h]

/-- Witness for C2 at a concrete callback and step: `sampleSchedRec` agrees
with `sampleSched` at the queried index 2. -/
theorem scheduler_fn_passes_epoch_local_index_witness :
    TorchProfiler.scheduler_fn
        { sampleProfiler with _torch_profiler_scheduler := sampleSchedRec } 5
      = sampleProfiler.scheduler_fn 5 :=
  scheduler_fn_passes_epoch_local_index sampleProfiler sampleSchedRec 5 rfl

/-- C3: save/restore round trip. `state_dict` has exactly the keys
`batch_in_epoch` and `batches_per_epoch`, and loading it into any instance
(in particular a freshly constructed one after a process restart) succeeds
and restores the original `profiler_state` unchanged. -/
theorem state_dict_load_state_dict_roundtrip (p q : TorchProfiler) :
    List.map Prod.fst p.state_dict = ["batch_in_epoch", "batches_per_epoch"] ∧
    q.load_state_dict p.state_dict
      = some { q with profiler_state := p.profiler_state } := by
  refine ⟨rfl, ?_⟩
  simp [TorchProfiler.load_state_dict, TorchProfiler.state_dict, _TorchProfilerState.ofDict]

/-- C4: when `init` runs on a callback with no profiler yet, it succeeds and
constructs the torch profiler with a trace handler whose `worker_name` is
the string form of the caller's global distributed rank, under the
configured trace directory and gzip setting. -/
theorem init_names_trace_by_global_rank (self : TorchProfiler) (global_rank : Int)
    (state : State) (logger : Logger) (h : self.profiler = none) :
    ((self.init global_rank state logger).self.profiler).map TorchProfile.worker_name
        = some (toString global_rank) ∧
    ((self.init global_rank state logger).self.profiler).map TorchProfile.trace_dir
        = some self.hparams.tensorboard_trace_handler_dir ∧
    ((self.init global_rank state logger).self.profiler).map TorchProfile.use_gzip
        = some self.hparams.tensorboard_use_gzip ∧
    (self.init global_rank state logger).err = none := by
  simp [TorchProfiler.init, h, TorchProfile.__enter__]

/-- Witness for C4: `init` on the concrete pre-init callback at rank 3. -/
theorem init_names_trace_by_global_rank_witness :
    ((sampleProfiler.init 3 sampleState sampleLogger).self.profiler).map TorchProfile.worker_name
        = some (toString (3 : Int)) ∧
    ((sampleProfiler.init 3 sampleState sampleLogger).self.profiler).map TorchProfile.trace_dir
        = some sampleProfiler.hparams.tensorboard_trace_handler_dir ∧
    ((sampleProfiler.init 3 sampleState sampleLogger).self.profiler).map TorchProfile.use_gzip
        = some sampleProfiler.hparams.tensorboard_use_gzip ∧
    (sampleProfiler.init 3 sampleState sampleLogger).err = none :=
  init_names_trace_by_global_rank sampleProfiler 3 sampleState sampleLogger rfl

/-- C5: for every choice of constructor arguments, `__init__` applies the
external schedule factory to exactly the hparams it stored, under the
mapping wait→wait, warmup→warmup, active→active, skip→skip_first,
repeat→repeat. -/
theorem ctor_builds_schedule_with_arg_mapping
    (torch_schedule : TorchScheduleArgs → Int → ProfilerAction)
    (run_directory dir : String) (gz rs pm ws wf : Bool)
    (skip warmup active wait repeat_ : Int) :
    (TorchProfiler.__init__ torch_schedule run_directory dir gz rs pm ws wf
        skip warmup active wait repeat_)._torch_profiler_scheduler
      = torch_schedule
          { wait := wait, warmup := warmup, active := active
            skip_first := skip, repeat_ := repeat_ } ∧
    (TorchProfiler.__init__ torch_schedule run_directory dir gz rs pm ws wf
        skip warmup active wait repeat_).hparams.wait = wait ∧
    (TorchProfiler.__init__ torch_schedule run_directory dir gz rs pm ws wf
        skip warmup active wait repeat_).hparams.warmup = warmup ∧
    (TorchProfiler.__init__ torch_schedule run_directory dir gz rs pm ws wf
        skip warmup active wait repeat_).hparams.active = active ∧
    (TorchProfiler.__init__ torch_schedule run_directory dir gz rs pm ws wf
        skip warmup active wait repeat_).hparams.skip = skip ∧
    (TorchProfiler.__init__ torch_schedule run_directory dir gz rs pm ws wf
        skip warmup active wait repeat_).hparams.repeat_ = repeat_ :=
  ⟨rfl, rfl, rfl, rfl, rfl, rfl⟩

/-- C6: every lifecycle hook that receives the trainer `State` returns it
unchanged, whether or not it raises — the callback only observes training.
`close` receives no trainer state at all, so it cannot alter one. -/
theorem hooks_leave_trainer_state_unchanged (self : TorchProfiler)
    (global_rank : Int) (state : State) (logger : Logger) :
    (self.init global_rank state logger).state = state ∧
    (self.batch_start state logger).state = state ∧
    (self.batch_end state logger).state = state ∧
    (self.epoch_start state logger).state = state := by
  refine ⟨?_, ?_, ?_, ?_⟩ <;>
    cases h : self.profiler <;>
      simp [TorchProfiler.init, TorchProfiler.batch_start, TorchProfiler.batch_end,
        TorchProfiler.epoch_start, h]

/-- C7: after `init` has run (a wrapped profiler is present), `batch_start`
raises nothing, logs exactly one batch metric — the key `profiler/state`
mapped to the name of the wrapped profiler's current action — and records
`state.batch_idx` into `profiler_state.batch_in_epoch`. -/
theorem batch_start_logs_profiler_action (self : TorchProfiler) (p : TorchProfile)
    (state : State) (logger : Logger) (h : self.profiler = some p) :
    (self.batch_start state logger).err = none ∧
    (self.batch_start state logger).logger.logged
      = logger.logged ++ [("profiler/state", p.current_action.name)] ∧
    (self.batch_start state logger).self.profiler_state.batch_in_epoch
      = state.batch_idx := by
  simp [TorchProfiler.batch_start, Logger.metric_batch, h]

/-- Witness for C7: `batch_start` on the concrete post-init callback. -/
theorem batch_start_logs_profiler_action_witness :
    (sampleProfilerLive.batch_start sampleState sampleLogger).err = none ∧
    (sampleProfilerLive.batch_start sampleState sampleLogger).logger.logged
      = sampleLogger.logged ++ [("profiler/state", sampleProfile.current_action.name)] ∧
    (sampleProfilerLive.batch_start sampleState sampleLogger).self.profiler_state.batch_in_epoch
      = sampleState.batch_idx :=
  batch_start_logs_profiler_action sampleProfilerLive sampleProfile sampleState sampleLogger rfl

/-- C8: `batch_start` and `batch_end` raise the `AssertionError` carrying
`_PROFILE_MISSING_ERROR` exactly when the wrapped profiler is absent; when
it is present, `batch_end` succeeds and its only effect on the wrapped
profiler is one `step()`. -/
theorem batch_hooks_assert_profiler_present (self : TorchProfiler)
    (state : State) (logger : Logger) :
    ((self.batch_start state logger).err
        = some (PyErr.assertionError _PROFILE_MISSING_ERROR) ↔ self.profiler = none) ∧
    ((self.batch_end state logger).err
        = some (PyErr.assertionError _PROFILE_MISSING_ERROR) ↔ self.profiler = none) ∧
    ((self.batch_end state logger).err = none ↔ self.profiler.isSome = true) ∧
    (self.batch_end state logger).self.profiler = self.profiler.map TorchProfile.step := by
  cases h : self.profiler <;>
    simp [TorchProfiler.batch_start, TorchProfiler.batch_end, h]

/-- C9: `init` runs at most once per instance: on a callback with no
profiler it succeeds and enters the constructed profiler's context, and a
second `init` call on the result raises the `AssertionError` carrying
`_PROFILE_MISSING_ERROR` (whose text describes the opposite condition) and
leaves the callback unchanged. -/
theorem init_runs_at_most_once (self : TorchProfiler) (global_rank : Int)
    (state : State) (logger : Logger) (h : self.profiler = none) :
    (self.init global_rank state logger).err = none ∧
    ((self.init global_rank state logger).self.profiler).map TorchProfile.entered
      = some true ∧
    ((self.init global_rank state logger).self.init global_rank state logger).err
      = some (PyErr.assertionError _PROFILE_MISSING_ERROR) ∧
    ((self.init global_rank state logger).self.init global_rank state logger).self
      = (self.init global_rank state logger).self := by
  simp [TorchProfiler.init, h, TorchProfile.__enter__]

/-- Witness for C9: a first and second `init` on the concrete pre-init
callback at rank 0. -/
theorem init_runs_at_most_once_witness :
    (sampleProfiler.init 0 sampleState sampleLogger).err = none ∧
    ((sampleProfiler.init 0 sampleState sampleLogger).self.profiler).map TorchProfile.entered
      = some true ∧
    ((sampleProfiler.init 0 sampleState sampleLogger).self.init 0 sampleState sampleLogger).err
      = some (PyErr.assertionError _PROFILE_MISSING_ERROR) ∧
    ((sampleProfiler.init 0 sampleState sampleLogger).self.init 0 sampleState sampleLogger).self
      = (sampleProfiler.init 0 sampleState sampleLogger).self :=
  init_runs_at_most_once sampleProfiler 0 sampleState sampleLogger rfl

/-- C10: `close` is total and safe in every state: it only maps `__exit__`
over the optional wrapped profiler and touches nothing else, so with no
profiler present it is exactly the identity and never dereferences a
missing profiler. -/
theorem close_total_and_safe (self : TorchProfiler) :
    self.close = { self with profiler := self.profiler.map TorchProfile.__exit__ } := by
  cases self with
  | mk hp prof ps sched => cases prof <;> rfl
